import Mathlib

/-!
# Event types of `scip/type_event.h` and the AD unary plus of `cppad/local/unary_plus.hpp`

`SCIP_EVENTTYPE` is `unsigned int`, a 32-bit bit field.  Its values are embedded as
natural numbers below `2 ^ 32`; the C operators `&` and `|` on such values
are `&&&` and `|||` on `Nat` (neither can leave the 32-bit range).
-/

namespace SCIP

/-- The type of an event, `typedef unsigned int SCIP_EVENTTYPE` (bit field). -/
abbrev SCIP_EVENTTYPE := Nat

/-- The event was disabled and has no effect any longer. -/
def SCIP_EVENTTYPE_DISABLED : SCIP_EVENTTYPE := 0x00000000

/-! ## Atomic event types -/

def SCIP_EVENTTYPE_VARADDED : SCIP_EVENTTYPE := 0x00000001
def SCIP_EVENTTYPE_VARDELETED : SCIP_EVENTTYPE := 0x00000002
def SCIP_EVENTTYPE_VARFIXED : SCIP_EVENTTYPE := 0x00000004
def SCIP_EVENTTYPE_VARUNLOCKED : SCIP_EVENTTYPE := 0x00000008
def SCIP_EVENTTYPE_OBJCHANGED : SCIP_EVENTTYPE := 0x00000010
def SCIP_EVENTTYPE_GLBCHANGED : SCIP_EVENTTYPE := 0x00000020
def SCIP_EVENTTYPE_GUBCHANGED : SCIP_EVENTTYPE := 0x00000040
def SCIP_EVENTTYPE_LBTIGHTENED : SCIP_EVENTTYPE := 0x00000080
def SCIP_EVENTTYPE_LBRELAXED : SCIP_EVENTTYPE := 0x00000100
def SCIP_EVENTTYPE_UBTIGHTENED : SCIP_EVENTTYPE := 0x00000200
def SCIP_EVENTTYPE_UBRELAXED : SCIP_EVENTTYPE := 0x00000400
def SCIP_EVENTTYPE_GHOLEADDED : SCIP_EVENTTYPE := 0x00000800
def SCIP_EVENTTYPE_GHOLEREMOVED : SCIP_EVENTTYPE := 0x00001000
def SCIP_EVENTTYPE_LHOLEADDED : SCIP_EVENTTYPE := 0x00002000
def SCIP_EVENTTYPE_LHOLEREMOVED : SCIP_EVENTTYPE := 0x00004000
def SCIP_EVENTTYPE_IMPLADDED : SCIP_EVENTTYPE := 0x00008000
def SCIP_EVENTTYPE_PRESOLVEROUND : SCIP_EVENTTYPE := 0x00010000
def SCIP_EVENTTYPE_NODEFOCUSED : SCIP_EVENTTYPE := 0x00020000
def SCIP_EVENTTYPE_NODEFEASIBLE : SCIP_EVENTTYPE := 0x00040000
def SCIP_EVENTTYPE_NODEINFEASIBLE : SCIP_EVENTTYPE := 0x00080000
def SCIP_EVENTTYPE_NODEBRANCHED : SCIP_EVENTTYPE := 0x00100000
def SCIP_EVENTTYPE_FIRSTLPSOLVED : SCIP_EVENTTYPE := 0x00200000
def SCIP_EVENTTYPE_LPSOLVED : SCIP_EVENTTYPE := 0x00400000
def SCIP_EVENTTYPE_POORSOLFOUND : SCIP_EVENTTYPE := 0x00800000
def SCIP_EVENTTYPE_BESTSOLFOUND : SCIP_EVENTTYPE := 0x01000000
def SCIP_EVENTTYPE_ROWADDEDSEPA : SCIP_EVENTTYPE := 0x02000000
def SCIP_EVENTTYPE_ROWDELETEDSEPA : SCIP_EVENTTYPE := 0x04000000
def SCIP_EVENTTYPE_ROWADDEDLP : SCIP_EVENTTYPE := 0x08000000
def SCIP_EVENTTYPE_ROWDELETEDLP : SCIP_EVENTTYPE := 0x10000000
def SCIP_EVENTTYPE_ROWCOEFCHANGED : SCIP_EVENTTYPE := 0x20000000
def SCIP_EVENTTYPE_ROWCONSTCHANGED : SCIP_EVENTTYPE := 0x40000000
def SCIP_EVENTTYPE_ROWSIDECHANGED : SCIP_EVENTTYPE := 0x80000000

/-! ## Event masks -/

def SCIP_EVENTTYPE_GBDCHANGED : SCIP_EVENTTYPE :=
  SCIP_EVENTTYPE_GLBCHANGED ||| SCIP_EVENTTYPE_GUBCHANGED
def SCIP_EVENTTYPE_LBCHANGED : SCIP_EVENTTYPE :=
  SCIP_EVENTTYPE_LBTIGHTENED ||| SCIP_EVENTTYPE_LBRELAXED
def SCIP_EVENTTYPE_UBCHANGED : SCIP_EVENTTYPE :=
  SCIP_EVENTTYPE_UBTIGHTENED ||| SCIP_EVENTTYPE_UBRELAXED
def SCIP_EVENTTYPE_BOUNDTIGHTENED : SCIP_EVENTTYPE :=
  SCIP_EVENTTYPE_LBTIGHTENED ||| SCIP_EVENTTYPE_UBTIGHTENED
def SCIP_EVENTTYPE_BOUNDRELAXED : SCIP_EVENTTYPE :=
  SCIP_EVENTTYPE_LBRELAXED ||| SCIP_EVENTTYPE_UBRELAXED
def SCIP_EVENTTYPE_BOUNDCHANGED : SCIP_EVENTTYPE :=
  SCIP_EVENTTYPE_LBCHANGED ||| SCIP_EVENTTYPE_UBCHANGED
def SCIP_EVENTTYPE_GHOLECHANGED : SCIP_EVENTTYPE :=
  SCIP_EVENTTYPE_GHOLEADDED ||| SCIP_EVENTTYPE_GHOLEREMOVED
def SCIP_EVENTTYPE_LHOLECHANGED : SCIP_EVENTTYPE :=
  SCIP_EVENTTYPE_LHOLEADDED ||| SCIP_EVENTTYPE_LHOLEREMOVED
def SCIP_EVENTTYPE_HOLECHANGED : SCIP_EVENTTYPE :=
  SCIP_EVENTTYPE_GHOLECHANGED ||| SCIP_EVENTTYPE_LHOLECHANGED
def SCIP_EVENTTYPE_DOMCHANGED : SCIP_EVENTTYPE :=
  SCIP_EVENTTYPE_BOUNDCHANGED ||| SCIP_EVENTTYPE_HOLECHANGED
def SCIP_EVENTTYPE_VARCHANGED : SCIP_EVENTTYPE :=
  SCIP_EVENTTYPE_VARFIXED ||| SCIP_EVENTTYPE_VARUNLOCKED ||| SCIP_EVENTTYPE_OBJCHANGED
    ||| SCIP_EVENTTYPE_GBDCHANGED ||| SCIP_EVENTTYPE_DOMCHANGED ||| SCIP_EVENTTYPE_IMPLADDED
    ||| SCIP_EVENTTYPE_VARDELETED
def SCIP_EVENTTYPE_VAREVENT : SCIP_EVENTTYPE :=
  SCIP_EVENTTYPE_VARADDED ||| SCIP_EVENTTYPE_VARCHANGED
def SCIP_EVENTTYPE_NODESOLVED : SCIP_EVENTTYPE :=
  SCIP_EVENTTYPE_NODEFEASIBLE ||| SCIP_EVENTTYPE_NODEINFEASIBLE
    ||| SCIP_EVENTTYPE_NODEBRANCHED
def SCIP_EVENTTYPE_NODEEVENT : SCIP_EVENTTYPE :=
  SCIP_EVENTTYPE_NODEFOCUSED ||| SCIP_EVENTTYPE_NODESOLVED
def SCIP_EVENTTYPE_LPEVENT : SCIP_EVENTTYPE :=
  SCIP_EVENTTYPE_FIRSTLPSOLVED ||| SCIP_EVENTTYPE_LPSOLVED
def SCIP_EVENTTYPE_SOLFOUND : SCIP_EVENTTYPE :=
  SCIP_EVENTTYPE_POORSOLFOUND ||| SCIP_EVENTTYPE_BESTSOLFOUND
def SCIP_EVENTTYPE_SOLEVENT : SCIP_EVENTTYPE :=
  SCIP_EVENTTYPE_SOLFOUND
def SCIP_EVENTTYPE_ROWCHANGED : SCIP_EVENTTYPE :=
  SCIP_EVENTTYPE_ROWCOEFCHANGED ||| SCIP_EVENTTYPE_ROWCONSTCHANGED
    ||| SCIP_EVENTTYPE_ROWSIDECHANGED
def SCIP_EVENTTYPE_ROWEVENT : SCIP_EVENTTYPE :=
  SCIP_EVENTTYPE_ROWADDEDSEPA ||| SCIP_EVENTTYPE_ROWDELETEDSEPA ||| SCIP_EVENTTYPE_ROWADDEDLP
    ||| SCIP_EVENTTYPE_ROWDELETEDLP ||| SCIP_EVENTTYPE_ROWCHANGED

/-! ## The registry operations -/

/-- The membership test `(record_kind & subscribed_mask) != 0`. -/
def matchesMask (k m : SCIP_EVENTTYPE) : Bool := (k &&& m) != 0

/-- The union of two event types, `a | b`. -/
def union (a b : SCIP_EVENTTYPE) : SCIP_EVENTTYPE := a ||| b

/-- The number of bits set among the 32 bit positions of an event type. -/
def bitCount (x : SCIP_EVENTTYPE) : Nat :=
  ((List.range 32).filter (fun i => x.testBit i)).length

/-- The 32 atomic event types, in the order of their definition. -/
def atomics : List SCIP_EVENTTYPE :=
  [SCIP_EVENTTYPE_VARADDED, SCIP_EVENTTYPE_VARDELETED, SCIP_EVENTTYPE_VARFIXED,
   SCIP_EVENTTYPE_VARUNLOCKED, SCIP_EVENTTYPE_OBJCHANGED, SCIP_EVENTTYPE_GLBCHANGED,
   SCIP_EVENTTYPE_GUBCHANGED, SCIP_EVENTTYPE_LBTIGHTENED, SCIP_EVENTTYPE_LBRELAXED,
   SCIP_EVENTTYPE_UBTIGHTENED, SCIP_EVENTTYPE_UBRELAXED, SCIP_EVENTTYPE_GHOLEADDED,
   SCIP_EVENTTYPE_GHOLEREMOVED, SCIP_EVENTTYPE_LHOLEADDED, SCIP_EVENTTYPE_LHOLEREMOVED,
   SCIP_EVENTTYPE_IMPLADDED, SCIP_EVENTTYPE_PRESOLVEROUND, SCIP_EVENTTYPE_NODEFOCUSED,
   SCIP_EVENTTYPE_NODEFEASIBLE, SCIP_EVENTTYPE_NODEINFEASIBLE, SCIP_EVENTTYPE_NODEBRANCHED,
   SCIP_EVENTTYPE_FIRSTLPSOLVED, SCIP_EVENTTYPE_LPSOLVED, SCIP_EVENTTYPE_POORSOLFOUND,
   SCIP_EVENTTYPE_BESTSOLFOUND, SCIP_EVENTTYPE_ROWADDEDSEPA, SCIP_EVENTTYPE_ROWDELETEDSEPA,
   SCIP_EVENTTYPE_ROWADDEDLP, SCIP_EVENTTYPE_ROWDELETEDLP, SCIP_EVENTTYPE_ROWCOEFCHANGED,
   SCIP_EVENTTYPE_ROWCONSTCHANGED, SCIP_EVENTTYPE_ROWSIDECHANGED]

/-- The bitwise OR of a list of event types. -/
def orAll (l : List SCIP_EVENTTYPE) : SCIP_EVENTTYPE := l.foldr union SCIP_EVENTTYPE_DISABLED

/-- Every composite mask of `type_event.h`, paired with the atomic event types
that the full expansion of its definition consists of. -/
def compositeTable : List (SCIP_EVENTTYPE × List SCIP_EVENTTYPE) :=
  [(SCIP_EVENTTYPE_GBDCHANGED, [SCIP_EVENTTYPE_GLBCHANGED, SCIP_EVENTTYPE_GUBCHANGED]),
   (SCIP_EVENTTYPE_LBCHANGED, [SCIP_EVENTTYPE_LBTIGHTENED, SCIP_EVENTTYPE_LBRELAXED]),
   (SCIP_EVENTTYPE_UBCHANGED, [SCIP_EVENTTYPE_UBTIGHTENED, SCIP_EVENTTYPE_UBRELAXED]),
   (SCIP_EVENTTYPE_BOUNDTIGHTENED, [SCIP_EVENTTYPE_LBTIGHTENED, SCIP_EVENTTYPE_UBTIGHTENED]),
   (SCIP_EVENTTYPE_BOUNDRELAXED, [SCIP_EVENTTYPE_LBRELAXED, SCIP_EVENTTYPE_UBRELAXED]),
   (SCIP_EVENTTYPE_BOUNDCHANGED,
     [SCIP_EVENTTYPE_LBTIGHTENED, SCIP_EVENTTYPE_LBRELAXED, SCIP_EVENTTYPE_UBTIGHTENED,
      SCIP_EVENTTYPE_UBRELAXED]),
   (SCIP_EVENTTYPE_GHOLECHANGED, [SCIP_EVENTTYPE_GHOLEADDED, SCIP_EVENTTYPE_GHOLEREMOVED]),
   (SCIP_EVENTTYPE_LHOLECHANGED, [SCIP_EVENTTYPE_LHOLEADDED, SCIP_EVENTTYPE_LHOLEREMOVED]),
   (SCIP_EVENTTYPE_HOLECHANGED,
     [SCIP_EVENTTYPE_GHOLEADDED, SCIP_EVENTTYPE_GHOLEREMOVED, SCIP_EVENTTYPE_LHOLEADDED,
      SCIP_EVENTTYPE_LHOLEREMOVED]),
   (SCIP_EVENTTYPE_DOMCHANGED,
     [SCIP_EVENTTYPE_LBTIGHTENED, SCIP_EVENTTYPE_LBRELAXED, SCIP_EVENTTYPE_UBTIGHTENED,
      SCIP_EVENTTYPE_UBRELAXED, SCIP_EVENTTYPE_GHOLEADDED, SCIP_EVENTTYPE_GHOLEREMOVED,
      SCIP_EVENTTYPE_LHOLEADDED, SCIP_EVENTTYPE_LHOLEREMOVED]),
   (SCIP_EVENTTYPE_VARCHANGED,
     [SCIP_EVENTTYPE_VARFIXED, SCIP_EVENTTYPE_VARUNLOCKED, SCIP_EVENTTYPE_OBJCHANGED,
      SCIP_EVENTTYPE_GLBCHANGED, SCIP_EVENTTYPE_GUBCHANGED,
      SCIP_EVENTTYPE_LBTIGHTENED, SCIP_EVENTTYPE_LBRELAXED, SCIP_EVENTTYPE_UBTIGHTENED,
      SCIP_EVENTTYPE_UBRELAXED, SCIP_EVENTTYPE_GHOLEADDED, SCIP_EVENTTYPE_GHOLEREMOVED,
      SCIP_EVENTTYPE_LHOLEADDED, SCIP_EVENTTYPE_LHOLEREMOVED,
      SCIP_EVENTTYPE_IMPLADDED, SCIP_EVENTTYPE_VARDELETED]),
   (SCIP_EVENTTYPE_VAREVENT,
     [SCIP_EVENTTYPE_VARADDED,
      SCIP_EVENTTYPE_VARFIXED, SCIP_EVENTTYPE_VARUNLOCKED, SCIP_EVENTTYPE_OBJCHANGED,
      SCIP_EVENTTYPE_GLBCHANGED, SCIP_EVENTTYPE_GUBCHANGED,
      SCIP_EVENTTYPE_LBTIGHTENED, SCIP_EVENTTYPE_LBRELAXED, SCIP_EVENTTYPE_UBTIGHTENED,
      SCIP_EVENTTYPE_UBRELAXED, SCIP_EVENTTYPE_GHOLEADDED, SCIP_EVENTTYPE_GHOLEREMOVED,
      SCIP_EVENTTYPE_LHOLEADDED, SCIP_EVENTTYPE_LHOLEREMOVED,
      SCIP_EVENTTYPE_IMPLADDED, SCIP_EVENTTYPE_VARDELETED]),
   (SCIP_EVENTTYPE_NODESOLVED,
     [SCIP_EVENTTYPE_NODEFEASIBLE, SCIP_EVENTTYPE_NODEINFEASIBLE, SCIP_EVENTTYPE_NODEBRANCHED]),
   (SCIP_EVENTTYPE_NODEEVENT,
     [SCIP_EVENTTYPE_NODEFOCUSED, SCIP_EVENTTYPE_NODEFEASIBLE, SCIP_EVENTTYPE_NODEINFEASIBLE,
      SCIP_EVENTTYPE_NODEBRANCHED]),
   (SCIP_EVENTTYPE_LPEVENT, [SCIP_EVENTTYPE_FIRSTLPSOLVED, SCIP_EVENTTYPE_LPSOLVED]),
   (SCIP_EVENTTYPE_SOLFOUND, [SCIP_EVENTTYPE_POORSOLFOUND, SCIP_EVENTTYPE_BESTSOLFOUND]),
   (SCIP_EVENTTYPE_SOLEVENT, [SCIP_EVENTTYPE_POORSOLFOUND, SCIP_EVENTTYPE_BESTSOLFOUND]),
   (SCIP_EVENTTYPE_ROWCHANGED,
     [SCIP_EVENTTYPE_ROWCOEFCHANGED, SCIP_EVENTTYPE_ROWCONSTCHANGED,
      SCIP_EVENTTYPE_ROWSIDECHANGED]),
   (SCIP_EVENTTYPE_ROWEVENT,
     [SCIP_EVENTTYPE_ROWADDEDSEPA, SCIP_EVENTTYPE_ROWDELETEDSEPA, SCIP_EVENTTYPE_ROWADDEDLP,
      SCIP_EVENTTYPE_ROWDELETEDLP, SCIP_EVENTTYPE_ROWCOEFCHANGED,
      SCIP_EVENTTYPE_ROWCONSTCHANGED, SCIP_EVENTTYPE_ROWSIDECHANGED])]

/-- The six category masks of the header, one per group of atomic event types
(variable, presolving, node, LP, primal solution and row events). -/
def categoryMasks : List SCIP_EVENTTYPE :=
  [SCIP_EVENTTYPE_VAREVENT, SCIP_EVENTTYPE_PRESOLVEROUND, SCIP_EVENTTYPE_NODEEVENT,
   SCIP_EVENTTYPE_LPEVENT, SCIP_EVENTTYPE_SOLEVENT, SCIP_EVENTTYPE_ROWEVENT]

/-! ## Subscription and dispatch

`type_event.h` declares the filter, the queue and the execution callback
(`SCIP_EVENTFILTER`, `SCIP_EVENTQUEUE`, `SCIP_DECL_EVENTEXEC`) but holds no code that
dispatches events.  The dispatcher below follows the description of the filter, of
the queue and of dispatch in its immediate and its deferred mode. -/

/-- Modelled from the spec: the event record `{ kind, payload }`; the header only
declares `struct SCIP_Event`.  The payload is kept as an uninterpreted number. -/
structure EventRecord where
  kind : SCIP_EVENTTYPE
  payload : Nat
  deriving DecidableEq, Repr

/-- Modelled from the spec: a subscription `{ handler_ref, subscribed_mask, handler_data }`
together with the filter handle that `subscribe` returned for it; the header only
declares `struct SCIP_EventFilter`. -/
structure EventFilter where
  handle : Nat
  handler : Nat
  mask : SCIP_EVENTTYPE
  data : Nat
  deriving DecidableEq, Repr

/-- Modelled from the spec: the dispatcher state, the live filters in registration
order and the next unused filter handle; no dispatcher is defined in the header. -/
structure Dispatcher where
  filters : List EventFilter
  nextHandle : Nat
  deriving DecidableEq, Repr

/-- Modelled from the spec: one invocation `handler.execute(record, filter.handler_data)`,
tagged with the handle of the filter it was made for (the four arguments of
`SCIP_DECL_EVENTEXEC` without the solver pointer). -/
structure ExecCall where
  handle : Nat
  handler : Nat
  event : EventRecord
  data : Nat
  deriving DecidableEq, Repr

/-- Modelled from the spec: the dispatcher before any subscription. -/
def Dispatcher.empty : Dispatcher := { filters := [], nextHandle := 0 }

/-- Modelled from the spec: `subscribe(handler, mask, handler_data) -> FilterHandle`
appends a new filter after the existing ones and returns its fresh handle. -/
def subscribe (d : Dispatcher) (handler : Nat) (mask : SCIP_EVENTTYPE) (data : Nat) :
    Dispatcher × Nat :=
  ({ filters := d.filters ++ [{ handle := d.nextHandle, handler := handler, mask := mask,
                                data := data }],
     nextHandle := d.nextHandle + 1 }, d.nextHandle)

/-- Modelled from the spec: `unsubscribe(FilterHandle)` removes exactly that
subscription and is a no-op on a handle that is not live. -/
def unsubscribe (d : Dispatcher) (h : Nat) : Dispatcher :=
  { d with filters := d.filters.filter (fun f => f.handle != h) }

/-- Modelled from the spec: the calls `handler.execute(record, filter.handler_data)` that
a record gives rise to, one for every live filter with
`matches(kind_of(record), filter.mask)`, in registration order. -/
def matchedCalls (d : Dispatcher) (r : EventRecord) : List ExecCall :=
  (d.filters.filter (fun f => matchesMask r.kind f.mask)).map
    (fun f => { handle := f.handle, handler := f.handler, event := r, data := f.data })

/-- Modelled from the spec: a request to the subscription interface. -/
inductive SubscriptionOp where
  | subscribe (handler : Nat) (mask : SCIP_EVENTTYPE) (data : Nat)
  | unsubscribe (h : Nat)
  deriving DecidableEq, Repr

/-- Modelled from the spec: the dispatcher after one request. -/
def applyOp (d : Dispatcher) : SubscriptionOp → Dispatcher
  | .subscribe handler mask data => (subscribe d handler mask data).1
  | .unsubscribe h => unsubscribe d h

/-- Modelled from the spec: the dispatcher after a sequence of requests, starting
from the empty dispatcher. -/
def runOps (ops : List SubscriptionOp) : Dispatcher :=
  ops.foldl applyOp Dispatcher.empty

/-- Handles of live filters are below the next handle and pairwise different. -/
def Dispatcher.WellFormed (d : Dispatcher) : Prop :=
  (∀ f ∈ d.filters, f.handle < d.nextHandle) ∧ (d.filters.map EventFilter.handle).Nodup

/-! ## Handler lifecycle

The header declares the callbacks `SCIP_DECL_EVENTINIT`, `SCIP_DECL_EVENTEXIT`,
`SCIP_DECL_EVENTINITSOL`, `SCIP_DECL_EVENTEXITSOL`, `SCIP_DECL_EVENTFREE`,
`SCIP_DECL_EVENTEXEC`, `SCIP_DECL_EVENTDELETE` and `SCIP_DECL_EVENTCOPY`, and says in
their comments when each is called; the code that calls them is not part of the
header. -/

/-- Modelled from the spec: the lifecycle states of an event handler; the header has
no such type. -/
inductive HandlerState where
  | Uninitialized
  | ProblemInitialized
  | SolveInitialized
  | Active
  | SolveDeinitialized
  | ProblemDeinitialized
  | Freed
  deriving DecidableEq, Repr

/-- Modelled from the spec: the operations of the handler plugin interface. -/
inductive HandlerOp where
  | init
  | initsol
  | execute
  | exitsol
  | exit
  | free
  | delete
  | copy
  deriving DecidableEq, Repr

/-- Modelled from the spec: the error kinds of the event subsystem. -/
inductive EventError where
  | InvalidPayload
  | UnknownHandlerReference
  | LifecycleViolation
  | HandlerFailure
  deriving DecidableEq, Repr

/-- Modelled from the spec: the lifecycle transition of a handler under one operation.
`init`, `initsol`, `exitsol`, `exit` and `free` move along the chain (`initsol` passes
through `SolveInitialized` and ends in `Active`), `execute` is allowed while `Active`
and keeps the state, `delete` and `copy` are independent of the lifecycle, and an
operation invoked out of the allowed state order is a `LifecycleViolation`. -/
def step : HandlerState → HandlerOp → Except EventError HandlerState
  | .Uninitialized, .init => .ok .ProblemInitialized
  | .ProblemInitialized, .initsol => .ok .Active
  | .Active, .execute => .ok .Active
  | .Active, .exitsol => .ok .SolveDeinitialized
  | .SolveDeinitialized, .exit => .ok .ProblemDeinitialized
  | .ProblemDeinitialized, .free => .ok .Freed
  | s, .delete => .ok s
  | s, .copy => .ok s
  | _, _ => .error .LifecycleViolation

/-- Modelled from the spec: a sequence of operations applied from a state, stopping at
the first rejected one. -/
def run : HandlerState → List HandlerOp → Except EventError HandlerState
  | s, [] => .ok s
  | s, op :: ops =>
    match step s op with
    | .ok s' => run s' ops
    | .error e => .error e

/-- The position of a state in the lifecycle chain. -/
def HandlerState.rank : HandlerState → Nat
  | .Uninitialized => 0
  | .ProblemInitialized => 1
  | .SolveInitialized => 2
  | .Active => 3
  | .SolveDeinitialized => 4
  | .ProblemDeinitialized => 5
  | .Freed => 6

/-! ## Dispatch modes, the event queue and delivery -/

/-- Modelled from the spec: the two modes of `dispatch`, immediate invocation or
appending to the event queue. -/
inductive DispatchMode where
  | immediate
  | deferred
  deriving DecidableEq, Repr

/-- Modelled from the spec: the event queue, the `(record, matched filter)` pairs in the
order in which they were enqueued; the header only declares `struct SCIP_EventQueue`. -/
abbrev EventQueue := List (EventRecord × EventFilter)

/-- Modelled from the spec: what one invocation of `execute` comes to: the call that
was made and the answer of the handler's lifecycle to it. -/
structure ExecOutcome where
  call : ExecCall
  result : Except EventError HandlerState

/-- Modelled from the spec: the invocation of `execute` on the handler of a call; the
lifecycle state of that handler accepts it while `Active` and rejects it otherwise. -/
def invokeExecute (states : Nat → HandlerState) (c : ExecCall) : ExecOutcome :=
  { call := c, result := step (states c.handler) .execute }

/-- Modelled from the spec: `dispatch(record)`: for every live filter that matches, in
registration order, either (a) invoke `handler.execute(record, filter.handler_data)`
immediately, or (b) append `(record, filter)` to the event queue.  The result is the
invocations made and the queue afterwards. -/
def dispatch (mode : DispatchMode) (states : Nat → HandlerState) (d : Dispatcher)
    (q : EventQueue) (r : EventRecord) : List ExecOutcome × EventQueue :=
  match mode with
  | .immediate => ((matchedCalls d r).map (invokeExecute states), q)
  | .deferred =>
    ([], q ++ (d.filters.filter (fun f => matchesMask r.kind f.mask)).map (fun f => (r, f)))

/-- Modelled from the spec: draining the queue invokes `execute` for every queued pair
in the order of enqueueing and leaves the queue empty. -/
def drain (states : Nat → HandlerState) (q : EventQueue) : List ExecOutcome × EventQueue :=
  (q.map (fun p => invokeExecute states
      { handle := p.2.handle, handler := p.2.handler, event := p.1, data := p.2.data }), [])

end SCIP

/-! ## The AD unary plus operator of `cppad/local/unary_plus.hpp`

The class templates `AD<Base>` and `VecAD_reference<Base>` are declared in other
files of CppAD.  They enter as the type parameters `A` and `V`, the copy constructor of `AD<Base>`
as the parameter `copy`, and the member function `VecAD_reference<Base>::ADBase` as
the parameter `ADBase`. -/

namespace CppAD

/-- The member `template <class Base> inline AD<Base> AD<Base>::operator + (void) const`:
`AD<Base> result(*this); return result;`.  The pair is the returned value and the
operand `*this` as it is after the call (the function is `const`). -/
def AD.operator_plus {A : Type} (copy : A → A) (self : A) : A × A :=
  let result := copy self
  (result, self)

/-- The function
`template <class Base> inline AD<Base> operator + (const VecAD_reference<Base> &right)`:
`return right.ADBase();`. -/
def operator_plus {A V : Type} (ADBase : V → A) (right : V) : A :=
  ADBase right

end CppAD

/-! # Lemmas and verified properties -/

namespace SCIP

/-! ## Auxiliary facts about `|||` on natural numbers -/

theorem lor_eq_zero_iff (x y : Nat) : x ||| y = 0 ↔ x = 0 ∧ y = 0 := by
  constructor
  · intro h
    have hb : ∀ i, x.testBit i = false ∧ y.testBit i = false := by
      intro i
      have hi : (x ||| y).testBit i = false := by rw [h]; exact Nat.zero_testBit i
      rw [Nat.testBit_or] at hi
      simpa using hi
    constructor
    · apply Nat.eq_of_testBit_eq
      intro i
      rw [(hb i).1, Nat.zero_testBit]
    · apply Nat.eq_of_testBit_eq
      intro i
      rw [(hb i).2, Nat.zero_testBit]
  · rintro ⟨rfl, rfl⟩
    rfl

theorem matchesMask_union (k a b : SCIP_EVENTTYPE) :
    matchesMask k (union a b) = (matchesMask k a || matchesMask k b) := by
  unfold matchesMask union
  rw [Nat.and_or_distrib_left, Bool.eq_iff_iff]
  simp only [bne_iff_ne, ne_eq, Bool.or_eq_true, lor_eq_zero_iff]
  tauto

/-! ## Properties of the event-type registry -/

set_option maxRecDepth 100000 in
/-- C1: there are 32 atomic event types, the powers of two `2 ^ 0`, ..., `2 ^ 31`
(`0x00000001` through `0x80000000`); each has exactly one bit set, and two different
atomic event types have no bit in common. -/
theorem C1_atomics_single_bit_and_disjoint :
    atomics.length = 32 ∧
    atomics = (List.range 32).map (fun i => 2 ^ i) ∧
    atomics.head? = some 0x00000001 ∧ atomics.getLast? = some 0x80000000 ∧
    (∀ a ∈ atomics, bitCount a = 1 ∧ a < 2 ^ 32) ∧
    (∀ a ∈ atomics, ∀ b ∈ atomics, a ≠ b → a &&& b = 0) := by
  refine ⟨by decide, by decide, by decide, by decide, by decide, by decide⟩

set_option maxRecDepth 100000 in
/-- C2: for every pair of atomic event types `A`, `B`, both `A` and `B` match
`union A B`, and `A` matches `B` if and only if `A = B`. -/
theorem C2_atomic_pair_matches :
    ∀ a ∈ atomics, ∀ b ∈ atomics,
      matchesMask a (union a b) = true ∧ matchesMask b (union a b) = true ∧
      (matchesMask a b = true ↔ a = b) := by
  decide

/-- C2 at the pair `VARFIXED`, `LPSOLVED`. -/
theorem C2_atomic_pair_matches_witness :
    matchesMask SCIP_EVENTTYPE_VARFIXED
        (union SCIP_EVENTTYPE_VARFIXED SCIP_EVENTTYPE_LPSOLVED) = true ∧
      matchesMask SCIP_EVENTTYPE_LPSOLVED
        (union SCIP_EVENTTYPE_VARFIXED SCIP_EVENTTYPE_LPSOLVED) = true ∧
      (matchesMask SCIP_EVENTTYPE_VARFIXED SCIP_EVENTTYPE_LPSOLVED = true ↔
        SCIP_EVENTTYPE_VARFIXED = SCIP_EVENTTYPE_LPSOLVED) :=
  C2_atomic_pair_matches SCIP_EVENTTYPE_VARFIXED (by decide) SCIP_EVENTTYPE_LPSOLVED
    (by decide)

/-! ### Composite masks -/

theorem testBit_orAll (l : List SCIP_EVENTTYPE) (i : Nat)
    (h : (orAll l).testBit i = true) : ∃ a ∈ l, a.testBit i = true := by
  induction l with
  | nil => simp [orAll, SCIP_EVENTTYPE_DISABLED] at h
  | cons x xs ih =>
    have hx : (x ||| orAll xs).testBit i = true := h
    rw [Nat.testBit_or, Bool.or_eq_true] at hx
    rcases hx with hx | hx
    · exact ⟨x, List.mem_cons_self x xs, hx⟩
    · obtain ⟨a, ha, hai⟩ := ih hx
      exact ⟨a, List.mem_cons_of_mem x ha, hai⟩

theorem atomic_eq_two_pow_of_testBit (a : SCIP_EVENTTYPE) (ha : a ∈ atomics) (i : Nat)
    (h : a.testBit i = true) : a = 2 ^ i := by
  have hmap : a ∈ (List.range 32).map (fun j => 2 ^ j) := by
    have e : atomics = (List.range 32).map (fun j => 2 ^ j) := by decide
    rw [← e]; exact ha
  obtain ⟨j, _, rfl⟩ := List.mem_map.1 hmap
  rw [Nat.testBit_two_pow] at h
  rw [of_decide_eq_true h]

set_option maxRecDepth 100000 in
theorem compositeTable_shape :
    ∀ p ∈ compositeTable,
      p.2 ≠ [] ∧ p.2.Nodup ∧ (∀ a ∈ p.2, a ∈ atomics) ∧ p.1 = orAll p.2 ∧ p.1 ≠ 0 := by
  decide

set_option maxRecDepth 100000 in
/-- C3: each of the 19 composite masks of `type_event.h` is the bitwise OR of a
non-empty, duplicate-free list of atomic event types (the atomics of its fully
expanded definition); it is non-zero, and every bit set in it is the bit of one of
those atomics. -/
theorem C3_composites_are_unions_of_atomics :
    compositeTable.map Prod.fst =
      [SCIP_EVENTTYPE_GBDCHANGED, SCIP_EVENTTYPE_LBCHANGED, SCIP_EVENTTYPE_UBCHANGED,
       SCIP_EVENTTYPE_BOUNDTIGHTENED, SCIP_EVENTTYPE_BOUNDRELAXED,
       SCIP_EVENTTYPE_BOUNDCHANGED, SCIP_EVENTTYPE_GHOLECHANGED,
       SCIP_EVENTTYPE_LHOLECHANGED, SCIP_EVENTTYPE_HOLECHANGED, SCIP_EVENTTYPE_DOMCHANGED,
       SCIP_EVENTTYPE_VARCHANGED, SCIP_EVENTTYPE_VAREVENT, SCIP_EVENTTYPE_NODESOLVED,
       SCIP_EVENTTYPE_NODEEVENT, SCIP_EVENTTYPE_LPEVENT, SCIP_EVENTTYPE_SOLFOUND,
       SCIP_EVENTTYPE_SOLEVENT, SCIP_EVENTTYPE_ROWCHANGED, SCIP_EVENTTYPE_ROWEVENT] ∧
    ∀ p ∈ compositeTable,
      p.2 ≠ [] ∧ p.2.Nodup ∧ (∀ a ∈ p.2, a ∈ atomics) ∧ p.1 = orAll p.2 ∧ p.1 ≠ 0 ∧
      ∀ i, p.1.testBit i = true → ∃ a ∈ p.2, a = 2 ^ i := by
  refine ⟨by decide, ?_⟩
  intro p hp
  obtain ⟨h1, h2, h3, h4, h5⟩ := compositeTable_shape p hp
  refine ⟨h1, h2, h3, h4, h5, ?_⟩
  intro i hi
  rw [h4] at hi
  obtain ⟨a, ha, hai⟩ := testBit_orAll p.2 i hi
  exact ⟨a, ha, atomic_eq_two_pow_of_testBit a (h3 a ha) i hai⟩

/-- C3 at `SCIP_EVENTTYPE_DOMCHANGED`: it is the OR of the eight local bound and hole
atomics, and its bit 7 is the bit of `SCIP_EVENTTYPE_LBTIGHTENED`. -/
theorem C3_composites_are_unions_of_atomics_witness :
    SCIP_EVENTTYPE_DOMCHANGED =
        orAll [SCIP_EVENTTYPE_LBTIGHTENED, SCIP_EVENTTYPE_LBRELAXED,
          SCIP_EVENTTYPE_UBTIGHTENED, SCIP_EVENTTYPE_UBRELAXED, SCIP_EVENTTYPE_GHOLEADDED,
          SCIP_EVENTTYPE_GHOLEREMOVED, SCIP_EVENTTYPE_LHOLEADDED,
          SCIP_EVENTTYPE_LHOLEREMOVED] ∧
      ∃ a ∈ [SCIP_EVENTTYPE_LBTIGHTENED, SCIP_EVENTTYPE_LBRELAXED,
          SCIP_EVENTTYPE_UBTIGHTENED, SCIP_EVENTTYPE_UBRELAXED, SCIP_EVENTTYPE_GHOLEADDED,
          SCIP_EVENTTYPE_GHOLEREMOVED, SCIP_EVENTTYPE_LHOLEADDED,
          SCIP_EVENTTYPE_LHOLEREMOVED], a = 2 ^ 7 :=
  have h := C3_composites_are_unions_of_atomics.2
    (SCIP_EVENTTYPE_DOMCHANGED,
      [SCIP_EVENTTYPE_LBTIGHTENED, SCIP_EVENTTYPE_LBRELAXED,
        SCIP_EVENTTYPE_UBTIGHTENED, SCIP_EVENTTYPE_UBRELAXED, SCIP_EVENTTYPE_GHOLEADDED,
        SCIP_EVENTTYPE_GHOLEREMOVED, SCIP_EVENTTYPE_LHOLEADDED,
        SCIP_EVENTTYPE_LHOLEREMOVED]) (by decide)
  ⟨h.2.2.2.1, h.2.2.2.2.2 7 (by decide)⟩

set_option maxRecDepth 100000 in
theorem atomic_matches_composite :
    ∀ k ∈ atomics, ∀ p ∈ compositeTable, (matchesMask k p.1 = true ↔ k ∈ p.2) := by
  decide

/-- C4: matching a union is matching either part, for all event-type values; and an
atomic event type matches a composite mask of `type_event.h` exactly when it is one
of the atomics in the expansion of that mask. -/
theorem C4_composite_means_any_of (k a b : SCIP_EVENTTYPE) :
    (matchesMask k (union a b) = true ↔ matchesMask k a = true ∨ matchesMask k b = true) ∧
    (k ∈ atomics → ∀ p ∈ compositeTable, (matchesMask k p.1 = true ↔ k ∈ p.2)) := by
  refine ⟨?_, fun hk => atomic_matches_composite k hk⟩
  rw [matchesMask_union, Bool.or_eq_true]

/-- C4 at `k = UBRELAXED`, `a = LBCHANGED`, `b = UBCHANGED`, and at the composite
`SCIP_EVENTTYPE_NODEEVENT`, which `UBRELAXED` does not match. -/
theorem C4_composite_means_any_of_witness :
    (matchesMask SCIP_EVENTTYPE_UBRELAXED
        (union SCIP_EVENTTYPE_LBCHANGED SCIP_EVENTTYPE_UBCHANGED) = true ↔
      matchesMask SCIP_EVENTTYPE_UBRELAXED SCIP_EVENTTYPE_LBCHANGED = true ∨
        matchesMask SCIP_EVENTTYPE_UBRELAXED SCIP_EVENTTYPE_UBCHANGED = true) ∧
    (matchesMask SCIP_EVENTTYPE_UBRELAXED SCIP_EVENTTYPE_NODEEVENT = true ↔
      SCIP_EVENTTYPE_UBRELAXED ∈
        [SCIP_EVENTTYPE_NODEFOCUSED, SCIP_EVENTTYPE_NODEFEASIBLE,
          SCIP_EVENTTYPE_NODEINFEASIBLE, SCIP_EVENTTYPE_NODEBRANCHED]) :=
  have h := C4_composite_means_any_of SCIP_EVENTTYPE_UBRELAXED SCIP_EVENTTYPE_LBCHANGED
    SCIP_EVENTTYPE_UBCHANGED
  ⟨h.1, h.2 (by decide)
    (SCIP_EVENTTYPE_NODEEVENT,
      [SCIP_EVENTTYPE_NODEFOCUSED, SCIP_EVENTTYPE_NODEFEASIBLE,
        SCIP_EVENTTYPE_NODEINFEASIBLE, SCIP_EVENTTYPE_NODEBRANCHED]) (by decide)⟩

/-- C5: `union` is idempotent, commutative and associative on all event-type values,
`SCIP_EVENTTYPE_DISABLED` is its identity element on both sides, and the union of
two 32-bit values is again a 32-bit value. -/
theorem C5_union_semilattice (a b c : SCIP_EVENTTYPE) :
    union a a = a ∧ union a b = union b a ∧
    union (union a b) c = union a (union b c) ∧
    union SCIP_EVENTTYPE_DISABLED a = a ∧ union a SCIP_EVENTTYPE_DISABLED = a ∧
    (a < 2 ^ 32 → b < 2 ^ 32 → union a b < 2 ^ 32) := by
  unfold union SCIP_EVENTTYPE_DISABLED
  exact ⟨Nat.or_self a, Nat.or_comm a b, Nat.or_assoc a b c, Nat.zero_or a, Nat.or_zero a,
    fun ha hb => Nat.or_lt_two_pow ha hb⟩

/-- C5 at `a = LBCHANGED`, `b = UBCHANGED`, `c = HOLECHANGED`. -/
theorem C5_union_semilattice_witness :
    union SCIP_EVENTTYPE_LBCHANGED SCIP_EVENTTYPE_UBCHANGED =
        union SCIP_EVENTTYPE_UBCHANGED SCIP_EVENTTYPE_LBCHANGED ∧
      union SCIP_EVENTTYPE_LBCHANGED SCIP_EVENTTYPE_UBCHANGED < 2 ^ 32 :=
  have h := C5_union_semilattice SCIP_EVENTTYPE_LBCHANGED SCIP_EVENTTYPE_UBCHANGED
    SCIP_EVENTTYPE_HOLECHANGED
  ⟨h.2.1, h.2.2.2.2.2 (by decide) (by decide)⟩

/-- C6: `SCIP_EVENTTYPE_DISABLED` is the zero mask; as an event kind it matches no
mask, and as a mask it is matched by no event kind. -/
theorem C6_disabled_never_matches (x : SCIP_EVENTTYPE) :
    SCIP_EVENTTYPE_DISABLED = 0 ∧
    matchesMask SCIP_EVENTTYPE_DISABLED x = false ∧
    matchesMask x SCIP_EVENTTYPE_DISABLED = false := by
  unfold matchesMask SCIP_EVENTTYPE_DISABLED
  refine ⟨rfl, ?_, ?_⟩
  · rw [Nat.zero_and]; rfl
  · rw [Nat.and_zero]; rfl

set_option maxRecDepth 100000 in
/-- C7: `SCIP_EVENTTYPE_BOUNDCHANGED` is
`LBTIGHTENED | LBRELAXED | UBTIGHTENED | UBRELAXED`, the value `0x00000780`, and an
atomic event type matches it if and only if it is one of these four. -/
theorem C7_boundchanged_is_four_atomics :
    SCIP_EVENTTYPE_BOUNDCHANGED =
      (SCIP_EVENTTYPE_LBTIGHTENED ||| SCIP_EVENTTYPE_LBRELAXED |||
        SCIP_EVENTTYPE_UBTIGHTENED ||| SCIP_EVENTTYPE_UBRELAXED) ∧
    SCIP_EVENTTYPE_BOUNDCHANGED = 0x00000780 ∧
    (∀ k ∈ atomics,
      (matchesMask k SCIP_EVENTTYPE_BOUNDCHANGED = true ↔
        k ∈ [SCIP_EVENTTYPE_LBTIGHTENED, SCIP_EVENTTYPE_LBRELAXED,
          SCIP_EVENTTYPE_UBTIGHTENED, SCIP_EVENTTYPE_UBRELAXED])) := by
  refine ⟨by decide, by decide, by decide⟩

/-! ## Subscription and dispatch: properties -/

theorem wellFormed_empty : Dispatcher.empty.WellFormed := by
  simp [Dispatcher.WellFormed, Dispatcher.empty]

theorem wellFormed_applyOp (d : Dispatcher) (op : SubscriptionOp) (h : d.WellFormed) :
    (applyOp d op).WellFormed := by
  obtain ⟨hlt, hnd⟩ := h
  cases op with
  | subscribe handler mask data =>
    refine ⟨?_, ?_⟩
    · intro f hf
      simp only [applyOp, subscribe, List.mem_append, List.mem_singleton] at hf
      rcases hf with hf | rfl
      · exact Nat.lt_succ_of_lt (hlt f hf)
      · exact Nat.lt_succ_self _
    · simp only [applyOp, subscribe, List.map_append, List.map_cons, List.map_nil]
      rw [List.nodup_append]
      refine ⟨hnd, List.nodup_singleton _, ?_⟩
      intro x hx hx'
      rw [List.mem_singleton] at hx'
      obtain ⟨f, hf, rfl⟩ := List.mem_map.1 hx
      exact absurd hx' (Nat.ne_of_lt (hlt f hf))
  | unsubscribe fh =>
    refine ⟨?_, ?_⟩
    · intro f hf
      simp only [applyOp, unsubscribe] at hf
      exact hlt f (List.mem_filter.1 hf).1
    · simp only [applyOp, unsubscribe]
      exact (List.filter_sublist _).map EventFilter.handle |>.nodup hnd

theorem wellFormed_foldl (ops : List SubscriptionOp) (d : Dispatcher) (h : d.WellFormed) :
    (ops.foldl applyOp d).WellFormed := by
  induction ops generalizing d with
  | nil => exact h
  | cons op ops ih => exact ih (applyOp d op) (wellFormed_applyOp d op h)

theorem wellFormed_runOps (ops : List SubscriptionOp) : (runOps ops).WellFormed :=
  wellFormed_foldl ops Dispatcher.empty wellFormed_empty

theorem filter_handle_eq_singleton (l : List EventFilter)
    (hnd : (l.map EventFilter.handle).Nodup) (f : EventFilter) (hf : f ∈ l) :
    l.filter (fun g => g.handle == f.handle) = [f] := by
  induction l with
  | nil => cases hf
  | cons x xs ih =>
    rw [List.map_cons, List.nodup_cons] at hnd
    rcases List.mem_cons.1 hf with rfl | hmem
    · have hno : xs.filter (fun g => g.handle == f.handle) = [] := by
        rw [List.filter_eq_nil_iff]
        intro g hg hgf
        exact hnd.1 (by rw [← beq_iff_eq.1 hgf]; exact List.mem_map_of_mem _ hg)
      simp [List.filter_cons, hno]
    · have hne : (x.handle == f.handle) = false := by
        rw [beq_eq_false_iff_ne]
        intro hxf
        exact hnd.1 (by rw [hxf]; exact List.mem_map_of_mem _ hmem)
      rw [List.filter_cons, hne]
      exact ih hnd.2 hmem

theorem matchedCalls_filter_handle (d : Dispatcher) (hd : d.WellFormed) (f : EventFilter)
    (hf : f ∈ d.filters) (r : EventRecord) :
    (matchedCalls d r).filter (fun c => c.handle == f.handle) =
      if matchesMask r.kind f.mask = true then
        [{ handle := f.handle, handler := f.handler, event := r, data := f.data }]
      else [] := by
  unfold matchedCalls
  rw [List.filter_map, List.filter_filter]
  have hswap : d.filters.filter
        (fun a => ((fun c : ExecCall => c.handle == f.handle) ∘
          (fun g : EventFilter =>
            ({ handle := g.handle, handler := g.handler, event := r, data := g.data } :
              ExecCall))) a && matchesMask r.kind a.mask) =
      (d.filters.filter (fun g => g.handle == f.handle)).filter
        (fun g => matchesMask r.kind g.mask) := by
    rw [List.filter_filter]
    apply List.filter_congr
    intro g _
    simp [Bool.and_comm]
  rw [hswap, filter_handle_eq_singleton d.filters hd.2 f hf]
  by_cases hm : matchesMask r.kind f.mask = true
  · simp [List.filter_cons, hm]
  · simp [List.filter_cons, hm]

theorem matchedCalls_filter_handler (d : Dispatcher) (hd : d.WellFormed) (f : EventFilter)
    (hf : f ∈ d.filters) (huniq : ∀ g ∈ d.filters, g.handler = f.handler → g = f)
    (r : EventRecord) :
    (matchedCalls d r).filter (fun c => c.handler == f.handler) =
      (matchedCalls d r).filter (fun c => c.handle == f.handle) := by
  apply List.filter_congr
  intro c hc
  unfold matchedCalls at hc
  obtain ⟨g, hg, rfl⟩ := List.mem_map.1 hc
  have hgl : g ∈ d.filters := (List.mem_filter.1 hg).1
  by_cases h : g.handler = f.handler
  · rw [huniq g hgl h]
    simp
  · have h2 : g.handle ≠ f.handle := by
      intro e
      exact h (by rw [List.inj_on_of_nodup_map hd.2 hgl hf e])
    simp [h, h2]

theorem matchedCalls_filter_handler_all (d : Dispatcher) (handler : Nat) (r : EventRecord) :
    (matchedCalls d r).filter (fun c => c.handler == handler) =
      (d.filters.filter (fun g => g.handler == handler && matchesMask r.kind g.mask)).map
        (fun g => { handle := g.handle, handler := g.handler, event := r, data := g.data }) := by
  unfold matchedCalls
  rw [List.filter_map, List.filter_filter]
  rfl

/-- After any sequence of requests, the calls made for one live subscription are
exactly one when the event's kind matches its mask and none otherwise, and the calls
made to a handler are one per live subscription of that handler whose mask matches. -/
theorem matchedCalls_per_subscription (ops : List SubscriptionOp) (f : EventFilter)
    (hf : f ∈ (runOps ops).filters) (r : EventRecord) :
    ((matchedCalls (runOps ops) r).filter (fun c => c.handle == f.handle) =
      if matchesMask r.kind f.mask = true then
        [{ handle := f.handle, handler := f.handler, event := r, data := f.data }]
      else []) ∧
    ((matchedCalls (runOps ops) r).filter (fun c => c.handler == f.handler) =
      ((runOps ops).filters.filter
          (fun g => g.handler == f.handler && matchesMask r.kind g.mask)).map
        (fun g => { handle := g.handle, handler := g.handler, event := r, data := g.data })) :=
  ⟨matchedCalls_filter_handle (runOps ops) (wellFormed_runOps ops) f hf r,
   matchedCalls_filter_handler_all (runOps ops) f.handler r⟩

theorem mem_filters_foldl (post : List SubscriptionOp) (d : Dispatcher) (f : EventFilter)
    (hf : f ∈ d.filters) (hpost : SubscriptionOp.unsubscribe f.handle ∉ post) :
    f ∈ (post.foldl applyOp d).filters := by
  induction post generalizing d with
  | nil => exact hf
  | cons op post ih =>
    have hop : SubscriptionOp.unsubscribe f.handle ≠ op := fun e =>
      hpost (by rw [e]; exact List.mem_cons_self op post)
    have htail : SubscriptionOp.unsubscribe f.handle ∉ post := fun hm =>
      hpost (List.mem_cons_of_mem op hm)
    apply ih (applyOp d op) _ htail
    cases op with
    | subscribe handler mask data =>
      simp only [applyOp, subscribe]
      exact List.mem_append_left _ hf
    | unsubscribe h =>
      simp only [applyOp, unsubscribe]
      refine List.mem_filter.2 ⟨hf, ?_⟩
      rw [bne_iff_ne]
      intro e
      exact hop (by rw [e])

theorem subscription_stays_live (pre post : List SubscriptionOp) (H : Nat)
    (M : SCIP_EVENTTYPE) (D : Nat)
    (hpost : SubscriptionOp.unsubscribe (runOps pre).nextHandle ∉ post) :
    ({ handle := (runOps pre).nextHandle, handler := H, mask := M, data := D } : EventFilter) ∈
      (runOps (pre ++ .subscribe H M D :: post)).filters := by
  unfold runOps
  rw [List.foldl_append, List.foldl_cons]
  apply mem_filters_foldl post _ _ _ hpost
  simp only [applyOp, subscribe]
  exact List.mem_append_right _ (List.mem_singleton_self _)

theorem filter_map_invokeExecute (states : Nat → HandlerState) (l : List ExecCall) (H : Nat) :
    (l.map (invokeExecute states)).filter (fun o => o.call.handler == H) =
      (l.filter (fun c => c.handler == H)).map (invokeExecute states) := by
  rw [List.filter_map]
  rfl

theorem drain_append (states : Nat → HandlerState) (q q' : EventQueue) :
    (drain states (q ++ q')).1 = (drain states q).1 ++ (drain states q').1 := by
  simp only [drain, List.map_append]

theorem drain_matched (states : Nat → HandlerState) (d : Dispatcher) (r : EventRecord) :
    (drain states
        ((d.filters.filter (fun f => matchesMask r.kind f.mask)).map (fun f => (r, f)))).1 =
      (matchedCalls d r).map (invokeExecute states) := by
  simp only [drain, matchedCalls, List.map_map]
  rfl

theorem drain_length (states : Nat → HandlerState) (q : EventQueue) :
    (drain states q).1.length = q.length := by
  simp only [drain, List.length_map]

/-- C8: let handler `H` be subscribed with mask `M` and event data `D`, after any
earlier requests and followed by any later requests that do not unsubscribe this
subscription, and let it be the only live subscription of `H`.  For every raised
event: in immediate mode, dispatch invokes `execute` of `H` exactly once, with that
event and `D`, if the event's kind matches `M`, and zero times if it does not, and it
leaves the queue as it is.  In deferred mode nothing is invoked at the raise; draining
the queue delivers, after the invocations queued earlier and before those queued
later, exactly the invocations of immediate mode, so again one invocation of `H` with
that event and `D` if the kind matches and none otherwise, and it empties the queue.
The invocation is accepted, leaving `H` in state `Active`, when `H` is `Active`, and is
a `LifecycleViolation` otherwise. -/
theorem C8_execute_once_iff_matches (pre post : List SubscriptionOp) (H : Nat)
    (M : SCIP_EVENTTYPE) (D : Nat) (states : Nat → HandlerState) (q later : EventQueue)
    (r : EventRecord)
    (hpost : SubscriptionOp.unsubscribe (runOps pre).nextHandle ∉ post)
    (honly : ∀ g ∈ (runOps (pre ++ .subscribe H M D :: post)).filters,
      g.handler = H → g.handle = (runOps pre).nextHandle) :
    ((dispatch .immediate states (runOps (pre ++ .subscribe H M D :: post)) q r).1.filter
        (fun o => o.call.handler == H) =
      if matchesMask r.kind M = true then
        [{ call := { handle := (runOps pre).nextHandle, handler := H, event := r, data := D },
           result := step (states H) .execute }]
      else []) ∧
    (dispatch .immediate states (runOps (pre ++ .subscribe H M D :: post)) q r).2 = q ∧
    (dispatch .deferred states (runOps (pre ++ .subscribe H M D :: post)) q r).1 = [] ∧
    ((drain states
        ((dispatch .deferred states (runOps (pre ++ .subscribe H M D :: post)) q r).2 ++ later)).1 =
      (drain states q).1 ++
        (dispatch .immediate states (runOps (pre ++ .subscribe H M D :: post)) q r).1 ++
        (drain states later).1) ∧
    (((drain states
          (dispatch .deferred states (runOps (pre ++ .subscribe H M D :: post)) q r).2).1.drop q.length).filter
        (fun o => o.call.handler == H) =
      if matchesMask r.kind M = true then
        [{ call := { handle := (runOps pre).nextHandle, handler := H, event := r, data := D },
           result := step (states H) .execute }]
      else []) ∧
    (drain states
        ((dispatch .deferred states (runOps (pre ++ .subscribe H M D :: post)) q r).2 ++ later)).2 = [] ∧
    (states H = .Active → step (states H) .execute = .ok .Active) ∧
    (states H ≠ .Active → step (states H) .execute = .error .LifecycleViolation) := by
  have hd := wellFormed_runOps (pre ++ .subscribe H M D :: post)
  have hf := subscription_stays_live pre post H M D hpost
  have huniq : ∀ g ∈ (runOps (pre ++ .subscribe H M D :: post)).filters,
      g.handler = H →
        g = { handle := (runOps pre).nextHandle, handler := H, mask := M, data := D } :=
    fun g hg hh => List.inj_on_of_nodup_map hd.2 hg hf (honly g hg hh)
  have hcalls : (matchedCalls (runOps (pre ++ .subscribe H M D :: post)) r).filter
        (fun c => c.handler == H) =
      if matchesMask r.kind M = true then
        [{ handle := (runOps pre).nextHandle, handler := H, event := r, data := D }]
      else [] :=
    (matchedCalls_filter_handler _ hd _ hf huniq r).trans
      (matchedCalls_filter_handle _ hd _ hf r)
  have himm : ((matchedCalls (runOps (pre ++ .subscribe H M D :: post)) r).map
        (invokeExecute states)).filter (fun o => o.call.handler == H) =
      if matchesMask r.kind M = true then
        [{ call := { handle := (runOps pre).nextHandle, handler := H, event := r, data := D },
           result := step (states H) .execute }]
      else [] := by
    rw [filter_map_invokeExecute, hcalls]
    by_cases hm : matchesMask r.kind M = true
    · rw [if_pos hm, if_pos hm]; rfl
    · rw [if_neg hm, if_neg hm]; rfl
  refine ⟨himm, rfl, rfl, ?_, ?_, rfl, ?_, ?_⟩
  · show (drain states ((q ++ _) ++ later)).1 = _
    rw [drain_append, drain_append, drain_matched]
    rfl
  · show ((drain states (q ++ _)).1.drop q.length).filter _ = _
    rw [drain_append, drain_matched, ← drain_length states q, List.drop_left]
    exact himm
  · intro h
    rw [h]; rfl
  · intro h
    cases hs : states H <;> first | exact absurd hs h | rfl

/-- C8 for handler 7 subscribed with `SCIP_EVENTTYPE_BOUNDCHANGED` and data 70.  Before
it, handler 9 subscribes to `SCIP_EVENTTYPE_NODEEVENT` and handler 7 makes a
subscription that is removed again; after it, handler 11 subscribes to
`SCIP_EVENTTYPE_ROWEVENT` and handler 9 unsubscribes.  Raising
`SCIP_EVENTTYPE_UBTIGHTENED` while handler 7 is `Active` invokes it exactly once, and
the invocation is accepted. -/
theorem C8_execute_once_iff_matches_witness :
    (dispatch .immediate (fun _ => .Active)
        (runOps ([.subscribe 9 SCIP_EVENTTYPE_NODEEVENT 90,
                  .subscribe 7 SCIP_EVENTTYPE_VAREVENT 71, .unsubscribe 1] ++
          .subscribe 7 SCIP_EVENTTYPE_BOUNDCHANGED 70 ::
          [.subscribe 11 SCIP_EVENTTYPE_ROWEVENT 110, .unsubscribe 0]))
        [] { kind := SCIP_EVENTTYPE_UBTIGHTENED, payload := 5 }).1.filter
        (fun o => o.call.handler == 7) =
      [{ call := { handle := 2, handler := 7,
                   event := { kind := SCIP_EVENTTYPE_UBTIGHTENED, payload := 5 }, data := 70 },
         result := .ok .Active }] :=
  (C8_execute_once_iff_matches
    [.subscribe 9 SCIP_EVENTTYPE_NODEEVENT 90, .subscribe 7 SCIP_EVENTTYPE_VAREVENT 71,
      .unsubscribe 1]
    [.subscribe 11 SCIP_EVENTTYPE_ROWEVENT 110, .unsubscribe 0]
    7 SCIP_EVENTTYPE_BOUNDCHANGED 70 (fun _ => .Active) [] []
    { kind := SCIP_EVENTTYPE_UBTIGHTENED, payload := 5 } (by decide) (by decide)).1

/-! ## Handler lifecycle: properties -/

theorem run_append (s : HandlerState) (xs ys : List HandlerOp) :
    run s (xs ++ ys) =
      match run s xs with
      | .ok s' => run s' ys
      | .error e => .error e := by
  induction xs generalizing s with
  | nil => simp [run]
  | cons x xs ih =>
    simp only [List.cons_append, run]
    cases step s x with
    | ok s' => exact ih s'
    | error e => rfl

theorem execute_accepted_trace (pre : List HandlerOp) (s t : HandlerState)
    (h : run s (pre ++ [.execute]) = .ok t) :
    t = .Active ∧ s.rank ≤ 3 ∧ (s.rank < 3 → HandlerOp.initsol ∈ pre) ∧
      HandlerOp.exitsol ∉ pre := by
  induction pre generalizing s with
  | nil =>
    cases s <;> simp [run, step, HandlerState.rank] at h ⊢
    exact h.symm
  | cons op pre ih =>
    rw [List.cons_append, run] at h
    cases hs : step s op with
    | error e => rw [hs] at h; cases h
    | ok s' =>
      rw [hs] at h
      obtain ⟨h1, h2, h3, h4⟩ := ih s' h
      refine ⟨h1, ?_⟩
      cases s <;> cases op <;> simp [step] at hs <;> subst hs <;>
        simp_all [HandlerState.rank]

theorem run_snoc_execute (pre : List HandlerOp) (u : HandlerState)
    (h : run .Uninitialized pre = .ok u) :
    run .Uninitialized (pre ++ [.execute]) =
      if u = .Active then .ok .Active else .error .LifecycleViolation := by
  rw [run_append, h]
  cases u <;> simp [run, step]

/-- C9: the lifecycle chain `Uninitialized -init-> ProblemInitialized -initsol-> Active
-exitsol-> SolveDeinitialized -exit-> ProblemDeinitialized -free-> Freed` is accepted;
`execute` is accepted only in state `Active` and leaves the state unchanged; in every
other state, and so in every state reached from `Uninitialized` other than `Active`,
`execute` is rejected with `LifecycleViolation`; in particular an `execute` that comes
before `initsol` or after `exitsol` is rejected with `LifecycleViolation`. -/
theorem C9_execute_only_while_active (s : HandlerState) (pre : List HandlerOp) :
    (step .Uninitialized .init = .ok .ProblemInitialized ∧
      step .ProblemInitialized .initsol = .ok .Active ∧
      step .Active .exitsol = .ok .SolveDeinitialized ∧
      step .SolveDeinitialized .exit = .ok .ProblemDeinitialized ∧
      step .ProblemDeinitialized .free = .ok .Freed) ∧
    step .Active .execute = .ok .Active ∧
    (∀ s', step s .execute = .ok s' → s = .Active ∧ s' = s) ∧
    (s ≠ .Active → step s .execute = .error .LifecycleViolation) ∧
    (∀ u, run .Uninitialized pre = .ok u → u ≠ .Active →
      run .Uninitialized (pre ++ [.execute]) = .error .LifecycleViolation) ∧
    (∀ u, run .Uninitialized pre = .ok u → (HandlerOp.initsol ∉ pre ∨ HandlerOp.exitsol ∈ pre) →
      run .Uninitialized (pre ++ [.execute]) = .error .LifecycleViolation) ∧
    (∀ t, run .Uninitialized (pre ++ [.execute]) = .ok t →
      t = .Active ∧ HandlerOp.initsol ∈ pre ∧ HandlerOp.exitsol ∉ pre) := by
  refine ⟨⟨rfl, rfl, rfl, rfl, rfl⟩, rfl, ?_, ?_, ?_, ?_, ?_⟩
  · intro s' h
    cases s <;> simp [step] at h
    exact ⟨rfl, h.symm⟩
  · intro h
    cases s <;> simp [step] at h ⊢
  · intro u hu hne
    rw [run_snoc_execute pre u hu, if_neg hne]
  · intro u hu hor
    have hrun := run_snoc_execute pre u hu
    by_cases hact : u = .Active
    · rw [if_pos hact] at hrun
      obtain ⟨_, _, h3, h4⟩ := execute_accepted_trace pre .Uninitialized .Active hrun
      have hin : HandlerOp.initsol ∈ pre := h3 (by decide)
      rcases hor with hor | hor
      · exact absurd hin hor
      · exact absurd hor h4
    · rw [hrun, if_neg hact]
  · intro t ht
    obtain ⟨h1, _, h3, h4⟩ := execute_accepted_trace pre .Uninitialized t ht
    exact ⟨h1, h3 (by decide), h4⟩

/-- C9 in state `SolveDeinitialized`, reached by `init`, `initsol`, `exitsol`: an
`execute` after `exitsol` is rejected with `LifecycleViolation`. -/
theorem C9_execute_only_while_active_witness :
    step .SolveDeinitialized .execute = .error .LifecycleViolation ∧
    run .Uninitialized ([.init, .initsol, .exitsol] ++ [.execute]) =
      .error .LifecycleViolation :=
  have h := C9_execute_only_while_active .SolveDeinitialized [.init, .initsol, .exitsol]
  ⟨h.2.2.2.1 (by decide), h.2.2.2.2.1 .SolveDeinitialized rfl (by decide)⟩

/-! ## Category masks and nesting of the event masks -/

theorem two_pow_mem_atomics (i : Nat) (hi : i < 32) : 2 ^ i ∈ atomics := by
  have e : atomics = (List.range 32).map (fun j => 2 ^ j) := by decide
  rw [e]
  exact List.mem_map.2 ⟨i, List.mem_range.2 hi, rfl⟩

theorem exists_atomic_matching (x : SCIP_EVENTTYPE) (hx : x ≠ 0) (hlt : x < 2 ^ 32) :
    ∃ a ∈ atomics, matchesMask x a = true := by
  obtain ⟨i, hi⟩ := Nat.ne_zero_implies_bit_true hx
  have hi32 : i < 32 := by
    by_contra hge
    have h1 : 2 ^ 32 ≤ 2 ^ i := Nat.pow_le_pow_right (by decide) (Nat.le_of_not_lt hge)
    have h2 : 2 ^ i ≤ x := Nat.testBit_implies_ge hi
    exact absurd hlt (Nat.not_lt.2 (Nat.le_trans h1 h2))
  refine ⟨2 ^ i, two_pow_mem_atomics i hi32, ?_⟩
  unfold matchesMask
  rw [bne_iff_ne]
  intro hzero
  have hbit : (x &&& 2 ^ i).testBit i = true := by
    rw [Nat.testBit_and, hi, Nat.testBit_two_pow_self]
    rfl
  rw [hzero, Nat.zero_testBit] at hbit
  exact Bool.false_ne_true hbit

set_option maxRecDepth 100000 in
/-- C11: the six category masks `VAREVENT`, `PRESOLVEROUND`, `NODEEVENT`, `LPEVENT`,
`SOLEVENT` and `ROWEVENT` are six different values that are pairwise disjoint, and
every atomic event type matches exactly one of them, so the category of an atomic
event type is uniquely determined. -/
theorem C11_category_masks_partition_atomics :
    categoryMasks.Nodup ∧
    (∀ a ∈ categoryMasks, ∀ b ∈ categoryMasks, a ≠ b → a &&& b = 0) ∧
    (∀ k ∈ atomics, (categoryMasks.filter (fun c => matchesMask k c)).length = 1) ∧
    (∀ k ∈ atomics, ∃ c ∈ categoryMasks, matchesMask k c = true ∧
      ∀ c' ∈ categoryMasks, matchesMask k c' = true → c' = c) := by
  refine ⟨by decide, by decide, by decide, by decide⟩

set_option maxRecDepth 100000 in
/-- C12: the category masks have the values `0x0000FFFF`, `0x001E0000`, `0x00600000`,
`0x01800000` and `0xFE000000`, and together with `PRESOLVEROUND` they fill the whole
32-bit word `0xFFFFFFFF`, as do the 32 atomic event types.  Hence every non-zero
32-bit value matches at least one atomic event type, and a 32-bit value with exactly
one bit set is never disjoint from all atomic event types. -/
theorem C12_atomics_exhaust_the_word (x : SCIP_EVENTTYPE) :
    (SCIP_EVENTTYPE_VAREVENT ||| SCIP_EVENTTYPE_PRESOLVEROUND ||| SCIP_EVENTTYPE_NODEEVENT |||
      SCIP_EVENTTYPE_LPEVENT ||| SCIP_EVENTTYPE_SOLEVENT ||| SCIP_EVENTTYPE_ROWEVENT =
        0xFFFFFFFF) ∧
    (SCIP_EVENTTYPE_VAREVENT = 0x0000FFFF ∧ SCIP_EVENTTYPE_NODEEVENT = 0x001E0000 ∧
      SCIP_EVENTTYPE_LPEVENT = 0x00600000 ∧ SCIP_EVENTTYPE_SOLEVENT = 0x01800000 ∧
      SCIP_EVENTTYPE_ROWEVENT = 0xFE000000) ∧
    orAll atomics = 0xFFFFFFFF ∧
    (x ≠ 0 → x < 2 ^ 32 → ∃ a ∈ atomics, matchesMask x a = true) ∧
    (x < 2 ^ 32 → bitCount x = 1 → ¬ ∀ a ∈ atomics, x &&& a = 0) := by
  refine ⟨by decide, by decide, by decide, exists_atomic_matching x, ?_⟩
  intro hlt hone hall
  have hx : x ≠ 0 := by
    intro h0
    rw [h0] at hone
    exact absurd hone (by decide)
  obtain ⟨a, ha, hm⟩ := exists_atomic_matching x hx hlt
  unfold matchesMask at hm
  rw [hall a ha] at hm
  exact Bool.false_ne_true hm

/-- C12 at the value `0x00030000`, which matches an atomic event type, and at the
one-bit value `0x00010000`, which is not disjoint from all atomic event types. -/
theorem C12_atomics_exhaust_the_word_witness :
    (∃ a ∈ atomics, matchesMask 0x00030000 a = true) ∧
    ¬ ∀ a ∈ atomics, 0x00010000 &&& a = 0 :=
  ⟨(C12_atomics_exhaust_the_word 0x00030000).2.2.2.1 (by decide) (by decide),
   (C12_atomics_exhaust_the_word 0x00010000).2.2.2.2 (by decide) (by decide)⟩

theorem matchesMask_of_contained (k a b : SCIP_EVENTTYPE) (hab : a &&& b = a)
    (h : matchesMask k a = true) : matchesMask k b = true := by
  unfold matchesMask at h ⊢
  rw [bne_iff_ne] at h ⊢
  intro hkb
  apply h
  rw [← hab, Nat.and_comm a b, ← Nat.and_assoc, hkb, Nat.zero_and]

/-- C13: the variable-event masks are nested as bit sets (`A &&& B = A`): `LBCHANGED`
and `UBCHANGED` lie in `BOUNDCHANGED`, `BOUNDCHANGED` and `HOLECHANGED` in
`DOMCHANGED`, `DOMCHANGED` and `GBDCHANGED` in `VARCHANGED`, and `VARCHANGED` in
`VAREVENT`.  Hence for every event-type value `k`, matching `BOUNDCHANGED` implies
matching `DOMCHANGED`, which implies matching `VARCHANGED`, which implies matching
`VAREVENT`. -/
theorem C13_variable_masks_nested (k : SCIP_EVENTTYPE) :
    (SCIP_EVENTTYPE_LBCHANGED &&& SCIP_EVENTTYPE_BOUNDCHANGED = SCIP_EVENTTYPE_LBCHANGED ∧
      SCIP_EVENTTYPE_UBCHANGED &&& SCIP_EVENTTYPE_BOUNDCHANGED = SCIP_EVENTTYPE_UBCHANGED ∧
      SCIP_EVENTTYPE_BOUNDCHANGED &&& SCIP_EVENTTYPE_DOMCHANGED =
        SCIP_EVENTTYPE_BOUNDCHANGED ∧
      SCIP_EVENTTYPE_HOLECHANGED &&& SCIP_EVENTTYPE_DOMCHANGED = SCIP_EVENTTYPE_HOLECHANGED ∧
      SCIP_EVENTTYPE_DOMCHANGED &&& SCIP_EVENTTYPE_VARCHANGED = SCIP_EVENTTYPE_DOMCHANGED ∧
      SCIP_EVENTTYPE_GBDCHANGED &&& SCIP_EVENTTYPE_VARCHANGED = SCIP_EVENTTYPE_GBDCHANGED ∧
      SCIP_EVENTTYPE_VARCHANGED &&& SCIP_EVENTTYPE_VAREVENT = SCIP_EVENTTYPE_VARCHANGED) ∧
    (matchesMask k SCIP_EVENTTYPE_BOUNDCHANGED = true →
      matchesMask k SCIP_EVENTTYPE_DOMCHANGED = true) ∧
    (matchesMask k SCIP_EVENTTYPE_DOMCHANGED = true →
      matchesMask k SCIP_EVENTTYPE_VARCHANGED = true) ∧
    (matchesMask k SCIP_EVENTTYPE_VARCHANGED = true →
      matchesMask k SCIP_EVENTTYPE_VAREVENT = true) := by
  refine ⟨⟨by decide, by decide, by decide, by decide, by decide, by decide, by decide⟩,
    ?_, ?_, ?_⟩
  · exact matchesMask_of_contained k _ _ (by decide)
  · exact matchesMask_of_contained k _ _ (by decide)
  · exact matchesMask_of_contained k _ _ (by decide)

/-- C13 at `k = 0x00000600`, the union of `UBTIGHTENED` and `UBRELAXED`: it matches
`BOUNDCHANGED`, and so `DOMCHANGED`, `VARCHANGED` and `VAREVENT`. -/
theorem C13_variable_masks_nested_witness :
    matchesMask 0x00000600 SCIP_EVENTTYPE_DOMCHANGED = true ∧
    matchesMask 0x00000600 SCIP_EVENTTYPE_VARCHANGED = true ∧
    matchesMask 0x00000600 SCIP_EVENTTYPE_VAREVENT = true :=
  have h := C13_variable_masks_nested 0x00000600
  have h1 := h.2.1 (by decide)
  have h2 := h.2.2.1 h1
  ⟨h1, h2, h.2.2.2 h2⟩

/-- C14: the two decompositions of the local bound-change mask agree,
`BOUNDTIGHTENED | BOUNDRELAXED = LBCHANGED | UBCHANGED = BOUNDCHANGED`, and each is a
disjoint split: `BOUNDTIGHTENED & BOUNDRELAXED = 0` and `LBCHANGED & UBCHANGED = 0`. -/
theorem C14_bound_change_decompositions :
    SCIP_EVENTTYPE_BOUNDTIGHTENED ||| SCIP_EVENTTYPE_BOUNDRELAXED =
      SCIP_EVENTTYPE_LBCHANGED ||| SCIP_EVENTTYPE_UBCHANGED ∧
    SCIP_EVENTTYPE_LBCHANGED ||| SCIP_EVENTTYPE_UBCHANGED = SCIP_EVENTTYPE_BOUNDCHANGED ∧
    SCIP_EVENTTYPE_BOUNDTIGHTENED ||| SCIP_EVENTTYPE_BOUNDRELAXED =
      SCIP_EVENTTYPE_BOUNDCHANGED ∧
    SCIP_EVENTTYPE_BOUNDTIGHTENED &&& SCIP_EVENTTYPE_BOUNDRELAXED = 0 ∧
    SCIP_EVENTTYPE_LBCHANGED &&& SCIP_EVENTTYPE_UBCHANGED = 0 := by
  refine ⟨by decide, by decide, by decide, by decide, by decide⟩

set_option maxRecDepth 100000 in
/-- C15: the global bound changes `GLBCHANGED` and `GUBCHANGED` match neither
`BOUNDCHANGED` nor `DOMCHANGED` (`GBDCHANGED & DOMCHANGED = 0`) but both match
`VARCHANGED`; and among the atomic event types, `VARADDED` is the only one that
matches `VAREVENT` but not `VARCHANGED`. -/
theorem C15_global_bounds_outside_domchanged :
    (matchesMask SCIP_EVENTTYPE_GLBCHANGED SCIP_EVENTTYPE_BOUNDCHANGED = false ∧
      matchesMask SCIP_EVENTTYPE_GLBCHANGED SCIP_EVENTTYPE_DOMCHANGED = false ∧
      matchesMask SCIP_EVENTTYPE_GUBCHANGED SCIP_EVENTTYPE_BOUNDCHANGED = false ∧
      matchesMask SCIP_EVENTTYPE_GUBCHANGED SCIP_EVENTTYPE_DOMCHANGED = false) ∧
    SCIP_EVENTTYPE_GBDCHANGED &&& SCIP_EVENTTYPE_DOMCHANGED = 0 ∧
    (matchesMask SCIP_EVENTTYPE_GLBCHANGED SCIP_EVENTTYPE_VARCHANGED = true ∧
      matchesMask SCIP_EVENTTYPE_GUBCHANGED SCIP_EVENTTYPE_VARCHANGED = true) ∧
    (matchesMask SCIP_EVENTTYPE_VARADDED SCIP_EVENTTYPE_VAREVENT = true ∧
      matchesMask SCIP_EVENTTYPE_VARADDED SCIP_EVENTTYPE_VARCHANGED = false) ∧
    (∀ k ∈ atomics,
      (matchesMask k SCIP_EVENTTYPE_VAREVENT = true ∧
        matchesMask k SCIP_EVENTTYPE_VARCHANGED = false) ↔ k = SCIP_EVENTTYPE_VARADDED) := by
  refine ⟨by decide, by decide, by decide, by decide, by decide⟩

end SCIP

/-! ## AD unary plus: properties -/

namespace CppAD

/-- C10: when the copy constructor of `AD<Base>` yields an object equal to its
argument, `+x` is a copy of `x`, equal to `x`, and `x` is unchanged; `+r` for a
`VecAD_reference` `r` equals `r.ADBase()`; and unary plus is idempotent,
`+(+x) = +x = x`. -/
theorem C10_unary_plus_returns_operand {A V : Type} (copy : A → A)
    (hcopy : ∀ a, copy a = a) (ADBase : V → A) (x : A) (r : V) :
    (AD.operator_plus copy x).1 = copy x ∧
    (AD.operator_plus copy x).1 = x ∧
    (AD.operator_plus copy x).2 = x ∧
    operator_plus ADBase r = ADBase r ∧
    (AD.operator_plus copy (AD.operator_plus copy x).1).1 = (AD.operator_plus copy x).1 ∧
    (AD.operator_plus copy (AD.operator_plus copy x).1).1 = x := by
  have h1 : (AD.operator_plus copy x).1 = copy x := rfl
  have h2 : (AD.operator_plus copy x).1 = x := h1.trans (hcopy x)
  refine ⟨h1, h2, rfl, rfl, ?_, ?_⟩
  · rw [h2]; exact h2
  · rw [h2, h2]

/-- C10 with an `AD` object made of a value, a tape identifier and a tape address,
copied member by member, and a reference whose `ADBase` reads an element of a vector. -/
theorem C10_unary_plus_returns_operand_witness :
    (AD.operator_plus (fun a : Int × Nat × Nat => (a.1, a.2.1, a.2.2)) (-3, 1, 4)).1 =
        (-3, 1, 4) ∧
      operator_plus (fun i : Nat => (([5, 6, 7] : List Int).getD i 0, 0, 0)) 1 =
        ((6 : Int), 0, 0) :=
  have h := C10_unary_plus_returns_operand (fun a : Int × Nat × Nat => (a.1, a.2.1, a.2.2))
    (fun _ => rfl) (fun i : Nat => (([5, 6, 7] : List Int).getD i 0, 0, 0)) (-3, 1, 4) 1
  ⟨h.2.1, h.2.2.2.1⟩

end CppAD
